import Mathlib

/-!
Shallow embedding of the smart-positioning engine of
`src/hooks/useSmartPosition.ts` (repository `getboundingrect-react`).

Numbers are modelled as rationals (`ℚ`): every arithmetic operation the
engine performs (addition, subtraction, halving, comparison, `Math.min`,
`Math.max`) is exact on the inputs considered, so `ℚ` reproduces the
JavaScript number semantics on them.  The ambient viewport read
(`window.innerWidth` / `window.innerHeight`) is modelled as an explicit
`Viewport` argument, and the optional `options` object as a structure of
`Option`al fields whose `undefined` case (`none`) triggers the same
destructuring defaults as the source.
-/

namespace SmartPosition

/-- Rectangle record `BoundingRect` from `src/types`, as used by the
engine: all six fields are caller-supplied pixel values. -/
structure BoundingRect where
  top : ℚ
  left : ℚ
  bottom : ℚ
  right : ℚ
  width : ℚ
  height : ℚ
deriving DecidableEq

/-- Side type `TooltipPosition`: the four anchoring sides. -/
inductive TooltipPosition where
  | top
  | bottom
  | left
  | right
deriving DecidableEq

/-- Viewport size, read from `window` at call time in the source. -/
structure Viewport where
  width : ℚ
  height : ℚ
deriving DecidableEq

/-- Argument record `PositionInput` handed to every strategy and handler
(`useSmartPosition.ts` lines 17–23). -/
structure PositionInput where
  targetRect : BoundingRect
  tooltipWidth : ℚ
  tooltipHeight : ℚ
  gap : ℚ
  viewport : Viewport
deriving DecidableEq

/-- Placement candidate `PositionOutput` (lines 26–30). -/
structure PositionOutput where
  position : TooltipPosition
  x : ℚ
  y : ℚ
deriving DecidableEq

/-- Strategy type `PositionStrategy` (line 33): a strategy may fail
(`null` becomes `none`). -/
def PositionStrategy : Type := PositionInput → Option PositionOutput

/-- Handler type `PositionHandler` (lines 176–179): a correction pass,
total. -/
def PositionHandler : Type := PositionOutput → PositionInput → PositionOutput

/-- Constant `DEFAULT_GAP` (line 8). -/
def DEFAULT_GAP : ℚ := 8

/-- Constant `VIEWPORT_PADDING` (line 9). -/
def VIEWPORT_PADDING : ℚ := 8

/-- Constant `ARROW_PADDING` (line 10). -/
def ARROW_PADDING : ℚ := 20

/-- Strategy `bottomFirstStrategy` (lines 40–56). -/
def bottomFirstStrategy : PositionStrategy := fun i =>
  let spaceBelow := i.viewport.height - i.targetRect.bottom
  if spaceBelow ≥ i.tooltipHeight + i.gap then
    some ⟨TooltipPosition.bottom,
      i.targetRect.left + i.targetRect.width / 2 - i.tooltipWidth / 2,
      i.targetRect.bottom + i.gap⟩
  else
    none

/-- Strategy `topFirstStrategy` (lines 61–76). -/
def topFirstStrategy : PositionStrategy := fun i =>
  let spaceAbove := i.targetRect.top
  if spaceAbove ≥ i.tooltipHeight + i.gap then
    some ⟨TooltipPosition.top,
      i.targetRect.left + i.targetRect.width / 2 - i.tooltipWidth / 2,
      i.targetRect.top - i.tooltipHeight - i.gap⟩
  else
    none

/-- Strategy `rightFirstStrategy` (lines 81–97). -/
def rightFirstStrategy : PositionStrategy := fun i =>
  let spaceRight := i.viewport.width - i.targetRect.right
  if spaceRight ≥ i.tooltipWidth + i.gap then
    some ⟨TooltipPosition.right,
      i.targetRect.right + i.gap,
      i.targetRect.top + i.targetRect.height / 2 - i.tooltipHeight / 2⟩
  else
    none

/-- Strategy `leftFirstStrategy` (lines 102–117). -/
def leftFirstStrategy : PositionStrategy := fun i =>
  let spaceLeft := i.targetRect.left
  if spaceLeft ≥ i.tooltipWidth + i.gap then
    some ⟨TooltipPosition.left,
      i.targetRect.left - i.tooltipWidth - i.gap,
      i.targetRect.top + i.targetRect.height / 2 - i.tooltipHeight / 2⟩
  else
    none

/-- Strategy `followMouseStrategy` (lines 122–128): always succeeds. -/
def followMouseStrategy (mouseX mouseY : ℚ) : PositionStrategy := fun i =>
  some ⟨TooltipPosition.bottom, mouseX + i.gap, mouseY + i.gap⟩

/-- Strategy `fixedPositionStrategy` (lines 133–143): always succeeds. -/
def fixedPositionStrategy (fixedX fixedY : ℚ)
    (fixedPosition : TooltipPosition) : PositionStrategy := fun _ =>
  some ⟨fixedPosition, fixedX, fixedY⟩

/-- Preset `defaultStrategies` (lines 148–153): bottom, top, right,
left. -/
def defaultStrategies : List PositionStrategy :=
  [bottomFirstStrategy, topFirstStrategy, rightFirstStrategy,
   leftFirstStrategy]

/-- Preset `topPreferredStrategies` (lines 156–161). -/
def topPreferredStrategies : List PositionStrategy :=
  [topFirstStrategy, bottomFirstStrategy, leftFirstStrategy,
   rightFirstStrategy]

/-- Preset `horizontalStrategies` (lines 164–169). -/
def horizontalStrategies : List PositionStrategy :=
  [rightFirstStrategy, leftFirstStrategy, bottomFirstStrategy,
   topFirstStrategy]

/-- Handler `viewportBoundaryHandler` (lines 185–206): clamps `x` and
`y` independently, each by an if / else-if pair. -/
def viewportBoundaryHandler : PositionHandler := fun result i =>
  let x :=
    if result.x < VIEWPORT_PADDING then
      VIEWPORT_PADDING
    else if result.x + i.tooltipWidth > i.viewport.width - VIEWPORT_PADDING then
      i.viewport.width - i.tooltipWidth - VIEWPORT_PADDING
    else
      result.x
  let y :=
    if result.y < VIEWPORT_PADDING then
      VIEWPORT_PADDING
    else if result.y + i.tooltipHeight > i.viewport.height - VIEWPORT_PADDING then
      i.viewport.height - i.tooltipHeight - VIEWPORT_PADDING
    else
      result.y
  ⟨result.position, x, y⟩

/-- Handler `scrollContainerHandler` (lines 212–216): identity
placeholder. -/
def scrollContainerHandler : PositionHandler := fun result _ => result

/-- Handler `safeAreaHandler` (lines 222–239): keeps `y` clear of device
chrome (safeTop = 50, safeBottom = 34). -/
def safeAreaHandler : PositionHandler := fun result i =>
  let safeTop : ℚ := 50
  let safeBottom : ℚ := 34
  let y :=
    if result.y < safeTop then
      safeTop
    else if result.y + i.tooltipHeight > i.viewport.height - safeBottom then
      i.viewport.height - i.tooltipHeight - safeBottom
    else
      result.y
  ⟨result.position, result.x, y⟩

/-- Preset `defaultHandlers` (line 244). -/
def defaultHandlers : List PositionHandler := [viewportBoundaryHandler]

/-- Preset `mobileHandlers` (lines 247–250). -/
def mobileHandlers : List PositionHandler :=
  [viewportBoundaryHandler, safeAreaHandler]

/-- Preset `fullHandlers` (lines 253–257). -/
def fullHandlers : List PositionHandler :=
  [viewportBoundaryHandler, scrollContainerHandler, safeAreaHandler]

/-- Arrow-offset computation `calculateArrowOffset` (lines 266–292): raw
offset toward the target center, clamped by `Math.max` / `Math.min` with
`ARROW_PADDING`. -/
def calculateArrowOffset (result : PositionOutput)
    (targetRect : BoundingRect) (tooltipWidth tooltipHeight : ℚ) : ℚ :=
  if result.position = TooltipPosition.top ∨
      result.position = TooltipPosition.bottom then
    let centerX := targetRect.left + targetRect.width / 2
    let raw := centerX - result.x - tooltipWidth / 2
    max (-(tooltipWidth / 2) + ARROW_PADDING)
      (min (tooltipWidth / 2 - ARROW_PADDING) raw)
  else
    let centerY := targetRect.top + targetRect.height / 2
    let raw := centerY - result.y - tooltipHeight / 2
    max (-(tooltipHeight / 2) + ARROW_PADDING)
      (min (tooltipHeight / 2 - ARROW_PADDING) raw)

/-- Options record `SmartPositionOptions` (lines 298–303): both fields
optional; `none` models the field being absent / `undefined`. -/
structure SmartPositionOptions where
  strategies : Option (List PositionStrategy)
  handlers : Option (List PositionHandler)

/-- Final result record (`SmartPositionResult` from `src/types`). -/
structure SmartPositionResult where
  position : TooltipPosition
  x : ℚ
  y : ℚ
  arrowOffset : ℚ
deriving DecidableEq

/-- The strategy loop of `calculateSmartPosition` (lines 338–342): try
strategies in order, stopping at the first non-null result; `none` when
every strategy fails. -/
def runStrategies : List PositionStrategy → PositionInput →
    Option PositionOutput
  | [], _ => none
  | s :: rest, i =>
    match s i with
    | some r => some r
    | none => runStrategies rest i

/-- The hard-coded fallback candidate of `calculateSmartPosition`
(lines 345–351), used when every strategy returns null. -/
def fallbackPosition (i : PositionInput) : PositionOutput :=
  ⟨TooltipPosition.bottom,
   i.targetRect.left + i.targetRect.width / 2 - i.tooltipWidth / 2,
   i.targetRect.bottom + i.gap⟩

/-- The handler loop of `calculateSmartPosition` (lines 354–356): a
left-to-right fold of the handler list over the candidate. -/
def applyHandlers (handlers : List PositionHandler) (r : PositionOutput)
    (i : PositionInput) : PositionOutput :=
  handlers.foldl (fun acc h => h acc i) r

/-- Top-level engine `calculateSmartPosition` (lines 314–372).  The
viewport is the ambient `window` size, passed explicitly; absent option
fields fall back to `defaultStrategies` / `defaultHandlers` exactly as
the destructuring defaults on line 321 do. -/
def calculateSmartPosition (targetRect : BoundingRect)
    (tooltipWidth tooltipHeight gap : ℚ) (viewport : Viewport)
    (options : SmartPositionOptions) : SmartPositionResult :=
  let strategies := options.strategies.getD defaultStrategies
  let handlers := options.handlers.getD defaultHandlers
  let input : PositionInput :=
    ⟨targetRect, tooltipWidth, tooltipHeight, gap, viewport⟩
  let chosen := (runStrategies strategies input).getD (fallbackPosition input)
  let corrected := applyHandlers handlers chosen input
  ⟨corrected.position, corrected.x, corrected.y,
   calculateArrowOffset corrected targetRect tooltipWidth tooltipHeight⟩

/-- Preset lookup on `positionStrategies.presets` (lines 432–436).
JavaScript property access on an unknown key yields `undefined`,
modelled as `none`. -/
def strategyPresetLookup (name : String) : Option (List PositionStrategy) :=
  if name = "default" then some defaultStrategies
  else if name = "topPreferred" then some topPreferredStrategies
  else if name = "horizontal" then some horizontalStrategies
  else none

/-- Preset lookup on `positionHandlers.presets` (lines 444–448). -/
def handlerPresetLookup (name : String) : Option (List PositionHandler) :=
  if name = "default" then some defaultHandlers
  else if name = "mobile" then some mobileHandlers
  else if name = "full" then some fullHandlers
  else none

/-- Target rectangle of concrete scenario A in the spec. -/
def rectA : BoundingRect := ⟨10, 10, 30, 110, 100, 20⟩

/-- The `PositionInput` of scenario A: floating 200×100, gap 8,
viewport 1000×800. -/
def inputA : PositionInput := ⟨rectA, 200, 100, 8, ⟨1000, 800⟩⟩

/-- A degenerate zero rectangle, used for edge-case inputs. -/
def rect0 : BoundingRect := ⟨0, 0, 0, 0, 0, 0⟩

/-- An input whose floating element is as wide and tall as the whole
viewport (1000×1000 in a 1000×1000 viewport). -/
def inputWide : PositionInput := ⟨rect0, 1000, 1000, 8, ⟨1000, 1000⟩⟩

/-- If every strategy in the list fails on an input, the strategy loop
returns `none`. -/
theorem runStrategies_eq_none {l : List PositionStrategy}
    {i : PositionInput} (h : ∀ s ∈ l, s i = none) :
    runStrategies l i = none := by
  induction l with
  | nil => rfl
  | cons s rest ih =>
    have hs := h s (List.mem_cons_self s rest)
    simp only [runStrategies, hs]
    exact ih fun t ht => h t (List.mem_cons_of_mem s ht)

/-- Unfolding the handler fold one step. -/
theorem applyHandlers_cons (hd : PositionHandler)
    (tl : List PositionHandler) (r : PositionOutput) (i : PositionInput) :
    applyHandlers (hd :: tl) r i = applyHandlers tl (hd r i) i := by
  simp [applyHandlers]

/-- The clamped arrow offset is bounded whenever the relevant floating
dimension is at least twice `ARROW_PADDING`. -/
theorem calculateArrowOffset_le (res : PositionOutput)
    (rect : BoundingRect) (w h : ℚ) :
    ((res.position = TooltipPosition.top ∨
        res.position = TooltipPosition.bottom) →
      2 * ARROW_PADDING ≤ w →
      |calculateArrowOffset res rect w h| ≤ w / 2 - ARROW_PADDING) ∧
    ((res.position = TooltipPosition.left ∨
        res.position = TooltipPosition.right) →
      2 * ARROW_PADDING ≤ h →
      |calculateArrowOffset res rect w h| ≤ h / 2 - ARROW_PADDING) := by
  constructor
  · intro hpos hsz
    unfold calculateArrowOffset ARROW_PADDING at *
    rw [if_pos hpos, abs_le]
    constructor
    · have hlo : -(w / 2 - 20) ≤ -(w / 2) + 20 := by linarith
      exact le_trans hlo (le_max_left _ _)
    · exact max_le (by linarith)
        (le_trans (min_le_left _ _) (le_refl _))
  · intro hpos hsz
    have hne : ¬ (res.position = TooltipPosition.top ∨
        res.position = TooltipPosition.bottom) := by
      rcases hpos with hp | hp <;> rw [hp] <;> simp
    unfold calculateArrowOffset ARROW_PADDING at *
    rw [if_neg hne, abs_le]
    constructor
    · have hlo : -(h / 2 - 20) ≤ -(h / 2) + 20 := by linarith
      exact le_trans hlo (le_max_left _ _)
    · exact max_le (by linarith)
        (le_trans (min_le_left _ _) (le_refl _))

/-- C1: for every finite input and any strategy and handler lists,
`calculateSmartPosition` returns a complete result whose side is one of
the four sides; and when every strategy returns `none`, the hard-coded
fallback candidate (side bottom, x centered under the target, y below
the target plus the gap) is the one fed through the handler pipeline. -/
theorem calculateSmartPosition_total_and_fallback (rect : BoundingRect)
    (w h gap : ℚ) (vp : Viewport) (strategies : List PositionStrategy)
    (handlers : List PositionHandler) :
    ((calculateSmartPosition rect w h gap vp
        ⟨some strategies, some handlers⟩).position = TooltipPosition.top ∨
     (calculateSmartPosition rect w h gap vp
        ⟨some strategies, some handlers⟩).position = TooltipPosition.bottom ∨
     (calculateSmartPosition rect w h gap vp
        ⟨some strategies, some handlers⟩).position = TooltipPosition.left ∨
     (calculateSmartPosition rect w h gap vp
        ⟨some strategies, some handlers⟩).position = TooltipPosition.right) ∧
    ((∀ s ∈ strategies, s ⟨rect, w, h, gap, vp⟩ = none) →
      calculateSmartPosition rect w h gap vp ⟨some strategies, some handlers⟩ =
        ⟨(applyHandlers handlers
            ⟨TooltipPosition.bottom, rect.left + rect.width / 2 - w / 2,
             rect.bottom + gap⟩ ⟨rect, w, h, gap, vp⟩).position,
         (applyHandlers handlers
            ⟨TooltipPosition.bottom, rect.left + rect.width / 2 - w / 2,
             rect.bottom + gap⟩ ⟨rect, w, h, gap, vp⟩).x,
         (applyHandlers handlers
            ⟨TooltipPosition.bottom, rect.left + rect.width / 2 - w / 2,
             rect.bottom + gap⟩ ⟨rect, w, h, gap, vp⟩).y,
         calculateArrowOffset
           (applyHandlers handlers
             ⟨TooltipPosition.bottom, rect.left + rect.width / 2 - w / 2,
              rect.bottom + gap⟩ ⟨rect, w, h, gap, vp⟩) rect w h⟩) := by
  constructor
  · cases hp : (calculateSmartPosition rect w h gap vp
        ⟨some strategies, some handlers⟩).position <;> simp
  · intro hall
    have hnone := runStrategies_eq_none hall
    simp only [calculateSmartPosition, Option.getD_some, hnone,
      Option.getD_none, fallbackPosition]

/-- Witness for C1 at scenario A with an empty strategy list. -/
theorem calculateSmartPosition_total_and_fallback_witness :
    (∀ s ∈ ([] : List PositionStrategy),
      s ⟨rectA, 200, 100, 8, ⟨1000, 800⟩⟩ = none) ∧
    calculateSmartPosition rectA 200 100 8 ⟨1000, 800⟩ ⟨some [], some []⟩ =
      ⟨TooltipPosition.bottom, -40, 38, 0⟩ := by
  constructor
  · intro s hs
    exact absurd hs (List.not_mem_nil s)
  · have h := (calculateSmartPosition_total_and_fallback rectA 200 100 8
      ⟨1000, 800⟩ [] []).2 (fun s hs => absurd hs (List.not_mem_nil s))
    rw [h]
    norm_num [applyHandlers, calculateArrowOffset, rectA, ARROW_PADDING]

/-- C2: scenario A (target rect top 10, left 10, bottom 30, right 110,
width 100, height 20; floating 200×100; gap 8; viewport 1000×800), with
the default strategies and handlers, yields side bottom, x 8 (the raw
x of -40 clamped by the viewport-boundary handler) and y 38. -/
theorem scenarioA_result :
    (calculateSmartPosition rectA 200 100 8 ⟨1000, 800⟩ ⟨none, none⟩).position
        = TooltipPosition.bottom ∧
    (calculateSmartPosition rectA 200 100 8 ⟨1000, 800⟩ ⟨none, none⟩).x = 8 ∧
    (calculateSmartPosition rectA 200 100 8 ⟨1000, 800⟩ ⟨none, none⟩).y = 38 := by
  norm_num [calculateSmartPosition, runStrategies, defaultStrategies,
    defaultHandlers, bottomFirstStrategy, viewportBoundaryHandler,
    applyHandlers, calculateArrowOffset, fallbackPosition, rectA,
    VIEWPORT_PADDING, ARROW_PADDING]

/-- C3: whenever the floating element plus twice the padding fits in the
viewport on an axis, the viewport-boundary handler leaves that
coordinate inside the padded viewport. -/
theorem viewportBoundaryHandler_clamps (r : PositionOutput)
    (i : PositionInput) :
    (i.tooltipWidth + 2 * VIEWPORT_PADDING ≤ i.viewport.width →
      VIEWPORT_PADDING ≤ (viewportBoundaryHandler r i).x ∧
      (viewportBoundaryHandler r i).x + i.tooltipWidth ≤
        i.viewport.width - VIEWPORT_PADDING) ∧
    (i.tooltipHeight + 2 * VIEWPORT_PADDING ≤ i.viewport.height →
      VIEWPORT_PADDING ≤ (viewportBoundaryHandler r i).y ∧
      (viewportBoundaryHandler r i).y + i.tooltipHeight ≤
        i.viewport.height - VIEWPORT_PADDING) := by
  unfold viewportBoundaryHandler VIEWPORT_PADDING
  constructor <;> intro hfits <;> constructor <;> dsimp only <;>
    split_ifs <;> linarith

/-- Witness for C3 at the raw candidate of scenario A. -/
theorem viewportBoundaryHandler_clamps_witness :
    (inputA.tooltipWidth + 2 * VIEWPORT_PADDING ≤ inputA.viewport.width ∧
     VIEWPORT_PADDING ≤
       (viewportBoundaryHandler ⟨TooltipPosition.bottom, -40, 38⟩ inputA).x ∧
     (viewportBoundaryHandler ⟨TooltipPosition.bottom, -40, 38⟩ inputA).x +
         inputA.tooltipWidth ≤ inputA.viewport.width - VIEWPORT_PADDING) ∧
    (inputA.tooltipHeight + 2 * VIEWPORT_PADDING ≤ inputA.viewport.height ∧
     VIEWPORT_PADDING ≤
       (viewportBoundaryHandler ⟨TooltipPosition.bottom, -40, 38⟩ inputA).y ∧
     (viewportBoundaryHandler ⟨TooltipPosition.bottom, -40, 38⟩ inputA).y +
         inputA.tooltipHeight ≤ inputA.viewport.height - VIEWPORT_PADDING) := by
  have hw : inputA.tooltipWidth + 2 * VIEWPORT_PADDING ≤
      inputA.viewport.width := by
    norm_num [inputA, VIEWPORT_PADDING]
  have hh : inputA.tooltipHeight + 2 * VIEWPORT_PADDING ≤
      inputA.viewport.height := by
    norm_num [inputA, VIEWPORT_PADDING]
  have hx := (viewportBoundaryHandler_clamps
    ⟨TooltipPosition.bottom, -40, 38⟩ inputA).1 hw
  have hy := (viewportBoundaryHandler_clamps
    ⟨TooltipPosition.bottom, -40, 38⟩ inputA).2 hh
  exact ⟨⟨hw, hx.1, hx.2⟩, ⟨hh, hy.1, hy.2⟩⟩

/-- C4: when the bottom fit test passes, the default strategy chain
yields the bottom candidate and never reaches a later strategy. -/
theorem defaultChain_picks_bottom (i : PositionInput)
    (hfit : i.viewport.height - i.targetRect.bottom ≥ i.tooltipHeight + i.gap) :
    runStrategies defaultStrategies i =
      some ⟨TooltipPosition.bottom,
        i.targetRect.left + i.targetRect.width / 2 - i.tooltipWidth / 2,
        i.targetRect.bottom + i.gap⟩ := by
  have hb : bottomFirstStrategy i =
      some ⟨TooltipPosition.bottom,
        i.targetRect.left + i.targetRect.width / 2 - i.tooltipWidth / 2,
        i.targetRect.bottom + i.gap⟩ := by
    unfold bottomFirstStrategy
    rw [if_pos hfit]
  simp only [defaultStrategies, runStrategies, hb]

/-- Witness for C4 at scenario A. -/
theorem defaultChain_picks_bottom_witness :
    inputA.viewport.height - inputA.targetRect.bottom ≥
      inputA.tooltipHeight + inputA.gap ∧
    runStrategies defaultStrategies inputA =
      some ⟨TooltipPosition.bottom,
        inputA.targetRect.left + inputA.targetRect.width / 2 -
          inputA.tooltipWidth / 2,
        inputA.targetRect.bottom + inputA.gap⟩ := by
  have hfit : inputA.viewport.height - inputA.targetRect.bottom ≥
      inputA.tooltipHeight + inputA.gap := by
    norm_num [inputA, rectA]
  exact ⟨hfit, defaultChain_picks_bottom inputA hfit⟩

/-- C5 counterexample: with a 0-wide, 0-high floating element the engine
returns pointer offset 20, while the claimed unconditional bound would
require it to be at most -20; the claim fails when the floating
dimension is below twice `ARROW_PADDING`. -/
theorem arrowOffset_bound_cex :
    (calculateSmartPosition rect0 0 0 0 ⟨100, 100⟩ ⟨none, none⟩).position =
        TooltipPosition.bottom ∧
    ¬ |(calculateSmartPosition rect0 0 0 0 ⟨100, 100⟩
          ⟨none, none⟩).arrowOffset| ≤ (0 : ℚ) / 2 - ARROW_PADDING := by
  norm_num [calculateSmartPosition, runStrategies, defaultStrategies,
    defaultHandlers, bottomFirstStrategy, viewportBoundaryHandler,
    applyHandlers, calculateArrowOffset, fallbackPosition, rect0,
    VIEWPORT_PADDING, ARROW_PADDING]

/-- C5 amended: the pointer-offset bound holds whenever the relevant
floating dimension is at least 2 * ARROW_PADDING = 40: for top and
bottom placements the offset is bounded by half the floating width minus
the arrow padding, and for left and right placements by half the
floating height minus the arrow padding. -/
theorem arrowOffset_bound_amended (rect : BoundingRect) (w h gap : ℚ)
    (vp : Viewport) (opts : SmartPositionOptions) :
    (((calculateSmartPosition rect w h gap vp opts).position =
          TooltipPosition.top ∨
      (calculateSmartPosition rect w h gap vp opts).position =
          TooltipPosition.bottom) →
      2 * ARROW_PADDING ≤ w →
      |(calculateSmartPosition rect w h gap vp opts).arrowOffset| ≤
        w / 2 - ARROW_PADDING) ∧
    (((calculateSmartPosition rect w h gap vp opts).position =
          TooltipPosition.left ∨
      (calculateSmartPosition rect w h gap vp opts).position =
          TooltipPosition.right) →
      2 * ARROW_PADDING ≤ h →
      |(calculateSmartPosition rect w h gap vp opts).arrowOffset| ≤
        h / 2 - ARROW_PADDING) := by
  simp only [calculateSmartPosition]
  exact calculateArrowOffset_le _ rect w h

/-- Witness for C5 (amended) at scenario A. -/
theorem arrowOffset_bound_amended_witness :
    ((calculateSmartPosition rectA 200 100 8 ⟨1000, 800⟩
        ⟨none, none⟩).position = TooltipPosition.top ∨
     (calculateSmartPosition rectA 200 100 8 ⟨1000, 800⟩
        ⟨none, none⟩).position = TooltipPosition.bottom) ∧
    2 * ARROW_PADDING ≤ (200 : ℚ) ∧
    |(calculateSmartPosition rectA 200 100 8 ⟨1000, 800⟩
        ⟨none, none⟩).arrowOffset| ≤ 200 / 2 - ARROW_PADDING := by
  have hpos : (calculateSmartPosition rectA 200 100 8 ⟨1000, 800⟩
      ⟨none, none⟩).position = TooltipPosition.bottom := by
    norm_num [calculateSmartPosition, runStrategies, defaultStrategies,
      defaultHandlers, bottomFirstStrategy, viewportBoundaryHandler,
      applyHandlers, calculateArrowOffset, fallbackPosition, rectA,
      VIEWPORT_PADDING, ARROW_PADDING]
  have hsz : 2 * ARROW_PADDING ≤ (200 : ℚ) := by norm_num [ARROW_PADDING]
  exact ⟨Or.inr hpos, hsz,
    (arrowOffset_bound_amended rectA 200 100 8 ⟨1000, 800⟩
      ⟨none, none⟩).1 (Or.inr hpos) hsz⟩

/-- C6: any correction pipeline built from the three built-in handlers
(viewport-boundary, scroll-container, safe-area) preserves the chosen
side; handlers only ever change x and y. -/
theorem handlers_preserve_side (handlers : List PositionHandler)
    (hmem : ∀ hdl ∈ handlers, hdl = viewportBoundaryHandler ∨
      hdl = scrollContainerHandler ∨ hdl = safeAreaHandler)
    (r : PositionOutput) (i : PositionInput) :
    (applyHandlers handlers r i).position = r.position := by
  induction handlers generalizing r with
  | nil => rfl
  | cons hd tl ih =>
    have step : (hd r i).position = r.position := by
      rcases hmem hd (List.mem_cons_self hd tl) with hh | hh | hh <;>
        rw [hh] <;> rfl
    rw [applyHandlers_cons, ih (fun t ht => hmem t (List.mem_cons_of_mem hd ht)),
      step]

/-- Witness for C6 with the mobile pipeline. -/
theorem handlers_preserve_side_witness :
    (∀ hdl ∈ mobileHandlers, hdl = viewportBoundaryHandler ∨
      hdl = scrollContainerHandler ∨ hdl = safeAreaHandler) ∧
    (applyHandlers mobileHandlers ⟨TooltipPosition.top, 0, 0⟩
        inputA).position = TooltipPosition.top := by
  have hmem : ∀ hdl ∈ mobileHandlers, hdl = viewportBoundaryHandler ∨
      hdl = scrollContainerHandler ∨ hdl = safeAreaHandler := by
    intro hdl hm
    simp only [mobileHandlers, List.mem_cons, List.not_mem_nil,
      or_false] at hm
    rcases hm with rfl | rfl
    · exact Or.inl rfl
    · exact Or.inr (Or.inr rfl)
  exact ⟨hmem, handlers_preserve_side mobileHandlers hmem
    ⟨TooltipPosition.top, 0, 0⟩ inputA⟩

/-- C7 counterexample: oversize floating element (1000 wide in a 1000
viewport) with incoming x = 10 is clamped to -8, not to the lower bound
8, so the lower clamp bound does not always win. -/
theorem oversize_lower_bound_cex :
    inputWide.tooltipWidth + 2 * VIEWPORT_PADDING > inputWide.viewport.width ∧
    (viewportBoundaryHandler ⟨TooltipPosition.bottom, 10, 10⟩ inputWide).x =
      -8 ∧
    (viewportBoundaryHandler ⟨TooltipPosition.bottom, 10, 10⟩ inputWide).x ≠
      VIEWPORT_PADDING := by
  norm_num [viewportBoundaryHandler, inputWide, rect0, VIEWPORT_PADDING]

/-- C7 amended: in the oversize case the output coordinate is at most
the padding; it equals the padding exactly when the incoming coordinate
was below the padding, and otherwise equals the upper clamp bound
(viewport extent minus floating extent minus padding, itself below the
padding), letting the element overflow on the corresponding side. -/
theorem viewportBoundary_oversize (r : PositionOutput) (i : PositionInput) :
    (i.tooltipWidth + 2 * VIEWPORT_PADDING > i.viewport.width →
      (viewportBoundaryHandler r i).x ≤ VIEWPORT_PADDING ∧
      (r.x < VIEWPORT_PADDING →
        (viewportBoundaryHandler r i).x = VIEWPORT_PADDING) ∧
      (¬ r.x < VIEWPORT_PADDING →
        (viewportBoundaryHandler r i).x =
          i.viewport.width - i.tooltipWidth - VIEWPORT_PADDING)) ∧
    (i.tooltipHeight + 2 * VIEWPORT_PADDING > i.viewport.height →
      (viewportBoundaryHandler r i).y ≤ VIEWPORT_PADDING ∧
      (r.y < VIEWPORT_PADDING →
        (viewportBoundaryHandler r i).y = VIEWPORT_PADDING) ∧
      (¬ r.y < VIEWPORT_PADDING →
        (viewportBoundaryHandler r i).y =
          i.viewport.height - i.tooltipHeight - VIEWPORT_PADDING)) := by
  unfold viewportBoundaryHandler VIEWPORT_PADDING
  constructor <;> intro hbig <;> dsimp only <;>
    refine ⟨?_, fun hlt => ?_, fun hge => ?_⟩ <;> split_ifs <;>
    first
      | rfl
      | linarith

/-- Witness for C7 (amended) on the oversize input. -/
theorem viewportBoundary_oversize_witness :
    (inputWide.tooltipWidth + 2 * VIEWPORT_PADDING >
      inputWide.viewport.width) ∧
    (inputWide.tooltipHeight + 2 * VIEWPORT_PADDING >
      inputWide.viewport.height) ∧
    (viewportBoundaryHandler ⟨TooltipPosition.bottom, 10, 2⟩ inputWide).x =
      inputWide.viewport.width - inputWide.tooltipWidth - VIEWPORT_PADDING ∧
    (viewportBoundaryHandler ⟨TooltipPosition.bottom, 10, 2⟩ inputWide).y =
      VIEWPORT_PADDING := by
  have hbw : inputWide.tooltipWidth + 2 * VIEWPORT_PADDING >
      inputWide.viewport.width := by
    norm_num [inputWide, VIEWPORT_PADDING]
  have hbh : inputWide.tooltipHeight + 2 * VIEWPORT_PADDING >
      inputWide.viewport.height := by
    norm_num [inputWide, VIEWPORT_PADDING]
  have hx := ((viewportBoundary_oversize ⟨TooltipPosition.bottom, 10, 2⟩
    inputWide).1 hbw).2.2 (by norm_num [VIEWPORT_PADDING])
  have hy := ((viewportBoundary_oversize ⟨TooltipPosition.bottom, 10, 2⟩
    inputWide).2 hbh).2.1 (by norm_num [VIEWPORT_PADDING])
  exact ⟨hbw, hbh, hx, hy⟩

/-- C8 counterexample: an unknown preset name resolves to `undefined`
(`none`), and the engine silently computes the same result as with the
defaults instead of raising an error. -/
theorem unknownPreset_cex :
    strategyPresetLookup "bogus" = none ∧
    handlerPresetLookup "bogus" = none ∧
    calculateSmartPosition rectA 200 100 8 ⟨1000, 800⟩
        ⟨strategyPresetLookup "bogus", handlerPresetLookup "bogus"⟩ =
      calculateSmartPosition rectA 200 100 8 ⟨1000, 800⟩
        ⟨some defaultStrategies, some defaultHandlers⟩ := by
  refine ⟨?_, ?_, ?_⟩ <;> rfl

/-- C8 amended: any preset name outside the recognized ones yields
`undefined` lists, and the engine silently falls back to the default
strategies and handlers; no error is raised. -/
theorem unknownPreset_silent_default (name : String) (rect : BoundingRect)
    (w h gap : ℚ) (vp : Viewport)
    (hs : strategyPresetLookup name = none)
    (hh : handlerPresetLookup name = none) :
    calculateSmartPosition rect w h gap vp
        ⟨strategyPresetLookup name, handlerPresetLookup name⟩ =
      calculateSmartPosition rect w h gap vp
        ⟨some defaultStrategies, some defaultHandlers⟩ := by
  rw [hs, hh]
  rfl

/-- Witness for C8 (amended) with the unknown name "nope". -/
theorem unknownPreset_silent_default_witness :
    strategyPresetLookup "nope" = none ∧
    handlerPresetLookup "nope" = none ∧
    calculateSmartPosition rectA 200 100 8 ⟨1000, 800⟩
        ⟨strategyPresetLookup "nope", handlerPresetLookup "nope"⟩ =
      calculateSmartPosition rectA 200 100 8 ⟨1000, 800⟩
        ⟨some defaultStrategies, some defaultHandlers⟩ :=
  ⟨rfl, rfl,
    unknownPreset_silent_default "nope" rectA 200 100 8 ⟨1000, 800⟩ rfl rfl⟩

/-- C9: two invocations of the engine on identical arguments and an
unchanged viewport agree in all four result fields; the computation
reads nothing but its arguments and the viewport. -/
theorem calculateSmartPosition_deterministic (rect : BoundingRect)
    (w h gap : ℚ) (vp : Viewport) (opts : SmartPositionOptions) :
    (calculateSmartPosition rect w h gap vp opts).position =
        (calculateSmartPosition rect w h gap vp opts).position ∧
    (calculateSmartPosition rect w h gap vp opts).x =
        (calculateSmartPosition rect w h gap vp opts).x ∧
    (calculateSmartPosition rect w h gap vp opts).y =
        (calculateSmartPosition rect w h gap vp opts).y ∧
    (calculateSmartPosition rect w h gap vp opts).arrowOffset =
        (calculateSmartPosition rect w h gap vp opts).arrowOffset :=
  ⟨rfl, rfl, rfl, rfl⟩

/-- C10: the hard-coded fallback candidate is exactly the output of the
bottom strategy whenever the bottom fit test passes; the fallback is the
bottom placement formula with the fit test dropped. -/
theorem fallback_matches_bottomStrategy (i : PositionInput)
    (hfit : i.viewport.height - i.targetRect.bottom ≥
      i.tooltipHeight + i.gap) :
    bottomFirstStrategy i = some (fallbackPosition i) := by
  unfold bottomFirstStrategy fallbackPosition
  rw [if_pos hfit]

/-- Witness for C10 at scenario A. -/
theorem fallback_matches_bottomStrategy_witness :
    inputA.viewport.height - inputA.targetRect.bottom ≥
      inputA.tooltipHeight + inputA.gap ∧
    bottomFirstStrategy inputA = some (fallbackPosition inputA) := by
  have hfit : inputA.viewport.height - inputA.targetRect.bottom ≥
      inputA.tooltipHeight + inputA.gap := by
    norm_num [inputA, rectA]
  exact ⟨hfit, fallback_matches_bottomStrategy inputA hfit⟩

end SmartPosition
